import Mathlib

/-!
Shallow embedding of the credential / session-lifecycle core of the
simpleauthservice repository: the authentication handlers
(registerUser, signin, resetPasswordFromToken, requestResetPasswordToken,
requestConfirmationEmail, getJWTFromRefresh, revokeRefreshToken) and the
User model methods (hashPasswd, matchPasswd, getPwResetToken,
isPwResetTokenExpired, getEmailConfirmationToken, isConfirmEmailTokenExpired).

Times are modelled as Nat milliseconds (JS Date.now()).  Randomness
(crypto.randomBytes) is supplied by the environment as an explicit
parameter: a function from a byte count to the list of byte values
produced by that call.  The external storage collaborator (MongoDB) is
modelled as explicit lists of records in an AuthState value.
-/

set_option maxRecDepth 100000

namespace SimpleAuthService

/-- Lower-case hex digit for a value below 16, as produced by
Node's Buffer.toString with the hex encoding. -/
def hexDigitChar (n : Nat) : Char :=
  if n < 10 then Char.ofNat (48 + n) else Char.ofNat (87 + n)

/-- Hex encoding of a byte list: two hex digits per byte.  This models
crypto.randomBytes(n).toString applied with the hex encoding. -/
def bytesToHex (bs : List Nat) : String :=
  String.mk (bs.flatMap (fun b => [hexDigitChar (b / 16 % 16), hexDigitChar (b % 16)]))

/-- Modelled from the spec: the deterministic one-way digest (SHA-256, from
Node's crypto module, external to the repository) used by the Ephemeral Token
Issuer.  Only the properties the spec relies on are modelled: the digest is a
deterministic function of its input and its output is a fixed-width 64
character hex string (so it is never equal to the 100 or 60 character raw
token it digests).  One-wayness is outside a functional embedding. -/
def sha256hexM (s : String) : String :=
  let h := s.data.foldl (fun a c => (a * 131 + c.toNat) % 2 ^ 256) 5381
  String.mk ((List.range 64).map (fun i => hexDigitChar (h / 16 ^ i % 16)))

/-- Modelled from the spec: the output format of the Secret Hasher
collaborator (the bcryptjs library, external to the repository).  A bcrypt
hash embeds the per-call salt; the stored body determines verification. -/
structure BcryptHash where
  salt : Nat
  body : String
  deriving DecidableEq, Repr

/-- Modelled from the spec: bcrypt.hash.  The Secret Hasher contract is
hash(plaintext) embedding a per-call random salt; only the verification
relation matters to the handlers, so the body keeps the plaintext (the
one-way property is not expressible in a functional shallow embedding and
no theorem below relies on it). -/
def bcryptHashM (salt : Nat) (passwd : String) : BcryptHash :=
  { salt := salt, body := passwd }

/-- Modelled from the spec: bcrypt.compare — the verifier of the Secret
Hasher, satisfying verify(p, hash(p)) = true and verify(q, hash(p)) = false
for q different from p. -/
def bcryptCompareM (entered : String) (stored : BcryptHash) : Bool :=
  stored.body == entered

/-- models/user.js hashPasswd: genSalt then bcrypt.hash.  The random salt is
an explicit parameter. -/
def hashPasswd (salt : Nat) (passwd : String) : BcryptHash :=
  bcryptHashM salt passwd

/-- The User document (userSchema of models/user.js).  Absent optional
fields (pwResetToken, pwResetExpire, confirmEmailToken,
confirmEmailTokenExpire, password) are modelled as none. -/
structure Account where
  id : Nat
  uid : String
  name : String
  email : String
  password : Option BcryptHash
  provider : String
  role : String
  isEmailConfirmed : Bool
  isDeactivated : Bool
  pwResetToken : Option String
  pwResetExpire : Option Nat
  confirmEmailToken : Option String
  confirmEmailTokenExpire : Option Nat
  deriving DecidableEq, Repr

/-- userSchema.methods.matchPasswd: bcrypt.compare of the entered password
against the stored hash.  With no stored hash (oauth accounts) comparison
against undefined is false, never a match. -/
def matchPasswd (u : Account) (entered : String) : Bool :=
  match u.password with
  | some h => bcryptCompareM entered h
  | none => false

/-- userSchema.methods.getPwResetToken: 50 random bytes hex-encoded as the
raw token; the SHA-256 digest and an expiry 30 minutes from now are stored
on the account; the raw token is returned. -/
def getPwResetToken (now : Nat) (randomBytes : Nat → List Nat) (u : Account) :
    String × Account :=
  let resetToken := bytesToHex (randomBytes 50)
  (resetToken,
   { u with
     pwResetToken := some (sha256hexM resetToken)
     pwResetExpire := some (now + 30 * 60 * 1000) })

/-- userSchema.methods.isPwResetTokenExpired: true when the expiry field is
absent (JS falsy), else true exactly when now has reached the expiry. -/
def isPwResetTokenExpired (now : Nat) (u : Account) : Bool :=
  match u.pwResetExpire with
  | none => true
  | some e => decide (now ≥ e)

/-- userSchema.methods.getEmailConfirmationToken: 30 random bytes
hex-encoded as the raw token; the SHA-256 digest and an expiry 1 hour from
now are stored on the account; the raw token is returned. -/
def getEmailConfirmationToken (now : Nat) (randomBytes : Nat → List Nat)
    (u : Account) : String × Account :=
  let confirmationToken := bytesToHex (randomBytes 30)
  (confirmationToken,
   { u with
     confirmEmailToken := some (sha256hexM confirmationToken)
     confirmEmailTokenExpire := some (now + 60 * 60 * 1000) })

/-- userSchema.methods.isConfirmEmailTokenExpired: true when the expiry
field is absent (JS falsy), else true exactly when now has reached the
expiry. -/
def isConfirmEmailTokenExpired (now : Nat) (u : Account) : Bool :=
  match u.confirmEmailTokenExpire with
  | none => true
  | some e => decide (now ≥ e)

/-- Modelled from the spec: the RefreshTokenRecord of the Refresh Token
Manager (models/refreshToken.js is not under src/; only its callers are).
One row per issued refresh token: id (the opaque value handed to the
caller), owning account id, expiresAt, revoked flag, revokedAt, issuing IP
address, revoking IP address. -/
structure RefreshTokenRecord where
  id : Nat
  user : Nat
  expiresAt : Nat
  revoked : Bool
  revokedAt : Option Nat
  createdByIP : String
  revokedByIP : Option String
  deriving DecidableEq, Repr

/-- Modelled from the spec: rft.isExpired of models/refreshToken.js (not
under src/).  Per the spec a record is usable only while revoked is false
and now is before expiresAt, revocation and expiry being detected lazily at
validation time; this is the only check the handlers perform, so isExpired
holds when the record is revoked or past its expiry. -/
def RefreshTokenRecord.isExpired (r : RefreshTokenRecord) (now : Nat) : Bool :=
  r.revoked || decide (now ≥ r.expiresAt)

/-- Modelled from the spec: rft.revoke of models/refreshToken.js (not under
src/): marks the record Revoked, recording the time and the revoking IP. -/
def RefreshTokenRecord.revoke (r : RefreshTokenRecord) (now : Nat) (ip : String) :
    RefreshTokenRecord :=
  { r with revoked := true, revokedAt := some now, revokedByIP := some ip }

/-- The durable state held by the storage collaborator: the User and
RefreshToken collections, with counters supplying fresh internal ids. -/
structure AuthState where
  users : List Account
  nextUserId : Nat
  rfts : List RefreshTokenRecord
  nextRftId : Nat
  deriving DecidableEq, Repr

/-- Modelled from the spec: getRftById of models/refreshToken.js (not under
src/): fetch a refresh-token record by its id. -/
def getRftById (s : AuthState) (rtid : Nat) : Option RefreshTokenRecord :=
  s.rfts.find? (fun r => r.id == rtid)

/-- User.findById of the storage collaborator: fetch an account by its
internal id. -/
def findUserById (s : AuthState) (i : Nat) : Option Account :=
  s.users.find? (fun u => u.id == i)

/-- rft.save: write back a (possibly mutated) refresh-token record to the
row with the same id. -/
def saveRft (s : AuthState) (r : RefreshTokenRecord) : AuthState :=
  { s with rfts := s.rfts.map (fun x => if x.id == r.id then r else x) }

/-- user.save: write back a (possibly mutated) account to the row with the
same internal id. -/
def saveUser (s : AuthState) (u : Account) : AuthState :=
  { s with users := s.users.map (fun x => if x.id == u.id then u else x) }

/-- The refresh-token TTL.  Modelled from the spec: fixed TTL, e.g. 30
days. -/
def REFRESH_TOKEN_TTL_MS : Nat := 30 * 24 * 60 * 60 * 1000

/-- Modelled from the spec: getRefreshToken of models/refreshToken.js (not
under src/): the Refresh Token Manager issue operation — creates a new
Active record with a fixed TTL for the given account and returns its id as
the caller-facing token. -/
def getRefreshToken (s : AuthState) (u : Account) (ip : String) (now : Nat) :
    Nat × AuthState :=
  let r : RefreshTokenRecord :=
    { id := s.nextRftId
      user := u.id
      expiresAt := now + REFRESH_TOKEN_TTL_MS
      revoked := false
      revokedAt := none
      createdByIP := ip
      revokedByIP := none }
  (r.id, { s with rfts := s.rfts ++ [r], nextRftId := s.nextRftId + 1 })

/-- Modelled from the spec: revokeAllRfTokenByUser of models/refreshToken.js
(not under src/): marks every Active record owned by the account as
Revoked; records already terminal are left as they are. -/
def revokeAllRfTokenByUser (s : AuthState) (u : Account) (now : Nat) (ip : String) :
    AuthState :=
  { s with
    rfts := s.rfts.map (fun r =>
      if r.user == u.id && !r.revoked then r.revoke now ip else r) }

/-- Modelled from the spec: the Refresh Token Manager validate operation
(exercised by the refreshTokenValidation plugin, not under src/): fetch by
id; invalid if not found; if found but Revoked or past expiresAt, also
invalid. -/
def validateRft (now : Nat) (s : AuthState) (rtid : Nat) :
    Option RefreshTokenRecord :=
  match getRftById s rtid with
  | none => none
  | some r => if r.isExpired now then none else some r

/-- Modelled from the spec: the validity check applied to a raw password
reset token by the tokenCheck plugin (not under src/) before
resetPasswordFromToken runs — the stored digest matches the digest of the
supplied raw value and the stored expiry has not passed. -/
def pwResetTokenValid (now : Nat) (raw : String) (u : Account) : Bool :=
  (u.pwResetToken == some (sha256hexM raw)) && !(isPwResetTokenExpired now u)

/-- The observable reply produced through sendSuccessResponse /
sendErrorResponse of utils/responseHelpers: HTTP status code, message,
success flag, whether the refresh-token cookie is cleared, and the id of a
newly set refresh-token cookie when one is issued. -/
structure Response where
  statusCode : Nat
  message : String
  ok : Bool
  clearCookie : Bool
  refreshTokenCookie : Option Nat
  deriving DecidableEq, Repr

/-- utils/responseHelpers sendErrorResponse without cookie options. -/
def sendErrorResponse (code : Nat) (msg : String) : Response :=
  { statusCode := code, message := msg, ok := false, clearCookie := false
    refreshTokenCookie := none }

/-- utils/responseHelpers sendErrorResponse with the clearCookie option. -/
def sendErrorResponseClear (code : Nat) (msg : String) : Response :=
  { statusCode := code, message := msg, ok := false, clearCookie := true
    refreshTokenCookie := none }

/-- utils/responseHelpers sendSuccessResponse, optionally setting the
refresh-token cookie. -/
def sendSuccessResponse (code : Nat) (msg : String) (rft : Option Nat) : Response :=
  { statusCode := code, message := msg, ok := true, clearCookie := false
    refreshTokenCookie := rft }

/-- utils/responseHelpers sendSuccessResponse with the clearCookie option. -/
def sendSuccessResponseClear (code : Nat) (msg : String) : Response :=
  { statusCode := code, message := msg, ok := true, clearCookie := true
    refreshTokenCookie := none }

/-- The spec's TokenInvalid error kind for refresh tokens: a 400 error
whose underlying cause is a token that is not found, revoked or expired —
the two message strings the handlers emit for those causes. -/
def isTokenInvalidResp (r : Response) : Bool :=
  !r.ok && r.statusCode == 400 &&
    (r.message == "Invalid Refresh Token" || r.message == "Refresh Token Expired")

/-- handlers/authenticationHandler registerUser (POST /api/v1/auth/signup):
rejects a duplicate email; hashes the password; assigns role admin exactly
when configs.CHECK_ADMIN is set and no user documents exist; creates the
user with a random 15-byte hex uid; issues an email-confirmation token and
a refresh token.  The salt and the random bytes are explicit environment
inputs; the confirmation email only contributes payload fields to the 201
reply, which no branch depends on, so it is not modelled. -/
def registerUser (checkAdmin : Bool) (now : Nat) (ip : String) (salt : Nat)
    (randomBytes : Nat → List Nat) (name email password : String)
    (s : AuthState) : Response × AuthState :=
  match s.users.find? (fun u => u.email == email) with
  | some _ => (sendErrorResponse 400 "Duplicate field value entered", s)
  | none =>
    let hashed := hashPasswd salt password
    let role := if checkAdmin && s.users.length == 0 then "admin" else "user"
    let user : Account :=
      { id := s.nextUserId
        uid := bytesToHex (randomBytes 15)
        name := name
        email := email
        password := some hashed
        provider := "email"
        role := role
        isEmailConfirmed := false
        isDeactivated := false
        pwResetToken := none
        pwResetExpire := none
        confirmEmailToken := none
        confirmEmailTokenExpire := none }
    let user1 := (getEmailConfirmationToken now randomBytes user).2
    let s1 := { s with users := s.users ++ [user1], nextUserId := s.nextUserId + 1 }
    let issued := getRefreshToken s1 user1 ip now
    (sendSuccessResponse 201 "Sign up successful" (some issued.1), issued.2)

/-- handlers/authenticationHandler signin (POST /api/v1/auth/signin): the
user attached by the attachUserWithPassword plugin is checked with
matchPasswd; on a match a refresh token is issued and a 200 reply returned,
otherwise a 400 error.  The new-login email only contributes payload
fields, which no branch depends on, so it is not modelled. -/
def signin (now : Nat) (ip : String) (password : String) (user : Account)
    (s : AuthState) : Response × AuthState :=
  if matchPasswd user password then
    let issued := getRefreshToken s user ip now
    (sendSuccessResponse 200 "Signed in" (some issued.1), issued.2)
  else
    (sendErrorResponse 400 "Password Does not match", s)

/-- handlers/authenticationHandler requestConfirmationEmail
(POST /api/v1/auth/confirmEmail): rejects when the email is already
confirmed or the previous confirmation token is still outstanding;
otherwise issues a fresh confirmation token, saves the user, and reports
the outcome of the email collaborator (emailOk), whose message strings are
modelled. -/
def requestConfirmationEmail (now : Nat) (randomBytes : Nat → List Nat)
    (emailOk : Bool) (u : Account) (s : AuthState) : Response × AuthState :=
  if u.isEmailConfirmed then
    (sendErrorResponse 400 "Email already confirmed", s)
  else if !(isConfirmEmailTokenExpired now u) then
    (sendErrorResponse 400
      "Confirmation email was recently sent to your email. Check Spam/Promotions folder.\t\t\t\t Please request again after some time.", s)
  else
    let u1 := (getEmailConfirmationToken now randomBytes u).2
    let s1 := saveUser s u1
    if emailOk then
      (sendSuccessResponse 200 "Confirmation email sent" none, s1)
    else
      (sendErrorResponse 500 "Confirmation email could not be sent", s1)

/-- handlers/authenticationHandler requestResetPasswordToken
(POST /api/v1/auth/resetPassword): rejected while the previously issued
reset token is still outstanding (the cooldown gate); otherwise issues a
fresh reset token, saves the user, and reports the outcome of the email
collaborator (emailOk), whose message strings are modelled. -/
def requestResetPasswordToken (now : Nat) (randomBytes : Nat → List Nat)
    (emailOk : Bool) (u : Account) (s : AuthState) : Response × AuthState :=
  if !(isPwResetTokenExpired now u) then
    (sendErrorResponse 400 "Please check your email, try again later", s)
  else
    let u1 := (getPwResetToken now randomBytes u).2
    let s1 := saveUser s u1
    if emailOk then
      (sendSuccessResponse 200 "Password reset email sent" none, s1)
    else
      (sendErrorResponse 500 "Password reset email could not be sent", s1)

/-- handlers/authenticationHandler resetPasswordFromToken
(PUT /api/v1/auth/resetPassword): the user was attached by the tokenCheck
plugin after its raw reset token passed validation.  A mismatch between
password and confirmPassword is rejected with no state change; otherwise
every active refresh token of the account is revoked, the new password
hash is stored and the reset-token digest and expiry are cleared.  The
password-changed alert email only contributes payload fields, which no
branch depends on, so it is not modelled. -/
def resetPasswordFromToken (now : Nat) (ip : String) (salt : Nat)
    (password confirmPassword : String) (u : Account) (s : AuthState) :
    Response × AuthState :=
  if password != confirmPassword then
    (sendErrorResponse 400 "Password and confirmed password are different", s)
  else
    let s1 := revokeAllRfTokenByUser s u now ip
    let u1 := { u with
                password := some (hashPasswd salt password)
                pwResetToken := none
                pwResetExpire := none }
    (sendSuccessResponse 200 "Password Updated" none, saveUser s1 u1)

/-- handlers/authenticationHandler getJWTFromRefresh
(POST /api/v1/auth/refresh): rotation of a refresh token — fetch by id
(invalid if absent), reject if expired or revoked, reject if the owning
account no longer exists; otherwise revoke the presented record and issue
a fresh one for the same account, returning it in the cookie of the 200
reply. -/
def getJWTFromRefresh (now : Nat) (ip : String) (rtid : Nat) (s : AuthState) :
    Response × AuthState :=
  match getRftById s rtid with
  | none => (sendErrorResponse 400 "Invalid Refresh Token", s)
  | some rft =>
    if rft.isExpired now then
      (sendErrorResponse 400 "Refresh Token Expired", s)
    else
      match findUserById s rft.user with
      | none => (sendErrorResponse 400 "Invalid Refresh Token", s)
      | some user =>
        let s1 := saveRft s (rft.revoke now ip)
        let issued := getRefreshToken s1 user ip now
        (sendSuccessResponse 200 "Refresh token : successful" (some issued.1),
         issued.2)

/-- handlers/authenticationHandler revokeRefreshToken
(PUT /api/v1/auth/refresh/revoke).  In the source the three
sendInvalidToken() calls (record not found, owning account not found,
caller uid mismatch) are NOT preceded by a return statement, so after the
error reply is sent execution falls through.  This embedding follows the
JavaScript semantics exactly: the list collects every reply the handler
attempts to send, in order (the HTTP layer delivers only the first); in
the not-found cases the subsequent property access on null throws,
aborting the handler with no state change; in the uid-mismatch case
execution continues, so an unexpired token is still revoked and a second
(undeliverable) reply is attempted. -/
def revokeRefreshToken (now : Nat) (ip : String) (rtid : Nat)
    (callerUid : String) (s : AuthState) : List Response × AuthState :=
  match getRftById s rtid with
  | none => ([sendErrorResponseClear 400 "Invalid Refresh Token"], s)
  | some rft =>
    match findUserById s rft.user with
    | none => ([sendErrorResponseClear 400 "Invalid Refresh Token"], s)
    | some user =>
      let pre : List Response :=
        if user.uid == callerUid then []
        else [sendErrorResponseClear 400 "Invalid Refresh Token"]
      if rft.isExpired now then
        (pre ++ [sendErrorResponseClear 400 "Refresh Token Expired"], s)
      else
        (pre ++ [sendSuccessResponseClear 200 "Refresh token successfully revoked"],
         saveRft s (rft.revoke now ip))

/-! Helper lemmas. -/

theorem length_sha256hexM (s : String) : (sha256hexM s).length = 64 := by
  simp [sha256hexM, String.length]

theorem length_bytesToHex (bs : List Nat) : (bytesToHex bs).length = 2 * bs.length := by
  induction bs with
  | nil => rfl
  | cons b t ih =>
    simp only [bytesToHex, String.length, List.flatMap_cons, List.length_append] at ih ⊢
    simp at ih ⊢
    omega

theorem find?_map_replace (l : List RefreshTokenRecord) (i : Nat)
    (r r' : RefreshTokenRecord) (h : l.find? (fun x => x.id == i) = some r)
    (hid : r'.id = r.id) :
    (l.map (fun x => if x.id == r'.id then r' else x)).find? (fun x => x.id == i)
      = some r' := by
  induction l with
  | nil => simp at h
  | cons a t ih =>
    by_cases ha : a.id = i
    · rw [List.find?_cons_of_pos _ (by simpa using ha)] at h
      have hra : a = r := by simpa using h
      have hc : (a.id == r'.id) = true := by simp [hid, ← hra]
      simp only [List.map_cons, hc, if_pos]
      rw [List.find?_cons_of_pos _ (by simp [hid, ← hra, ha])]
    · rw [List.find?_cons_of_neg _ (by simpa using ha)] at h
      have hri : r.id = i := by simpa using List.find?_some h
      have hc : ¬ (a.id = r'.id) := by
        rw [hid, hri]
        exact ha
      simp only [List.map_cons]
      rw [if_neg (by simpa using hc)]
      rw [List.find?_cons_of_neg _ (by simpa using ha)]
      exact ih h

/-! Concrete fixtures used by witnesses and counterexamples. -/

/-- A deterministic stand-in for the environment randomness: n zero bytes. -/
def rbZero : Nat → List Nat := fun n => List.replicate n 0

/-- A concrete confirmed account. -/
def exUserA : Account :=
  { id := 1
    uid := "uida"
    name := "A"
    email := "a@x.com"
    password := some (bcryptHashM 3 "pw123456")
    provider := "email"
    role := "user"
    isEmailConfirmed := true
    isDeactivated := false
    pwResetToken := none
    pwResetExpire := none
    confirmEmailToken := none
    confirmEmailTokenExpire := none }

/-- A concrete live refresh token owned by exUserA. -/
def exRft0 : RefreshTokenRecord :=
  { id := 7
    user := 1
    expiresAt := 1000000
    revoked := false
    revokedAt := none
    createdByIP := "ip0"
    revokedByIP := none }

/-- A concrete state: one account, one live refresh token. -/
def exState : AuthState :=
  { users := [exUserA], nextUserId := 2, rfts := [exRft0], nextRftId := 8 }

/-- The empty state: no accounts, no refresh tokens. -/
def exEmptyState : AuthState :=
  { users := [], nextUserId := 1, rfts := [], nextRftId := 1 }

/-! Claim theorems. -/

/-- Claim C5: for every registration request whose email equals the email
of an existing account, registerUser fails with the duplicate-field error
and the state, in particular the set of accounts, is unchanged. -/
theorem registerDuplicateEmailRejected (checkAdmin : Bool) (now : Nat)
    (ip : String) (salt : Nat) (rb : Nat → List Nat)
    (name email password : String) (s : AuthState) (u : Account)
    (hu : u ∈ s.users) (he : u.email = email) :
    registerUser checkAdmin now ip salt rb name email password s
      = (sendErrorResponse 400 "Duplicate field value entered", s) := by
  unfold registerUser
  cases hf : s.users.find? (fun x => x.email == email) with
  | none =>
    exfalso
    have hne := List.find?_eq_none.mp hf u hu
    simp [he] at hne
  | some v => rfl

/-- Witness for C5 at a concrete duplicate registration. -/
theorem registerDuplicateEmailRejected_witness :
    exUserA ∈ exState.users ∧ exUserA.email = "a@x.com" ∧
    registerUser true 5 "ip9" 9 rbZero "B" "a@x.com" "pw123456" exState
      = (sendErrorResponse 400 "Duplicate field value entered", exState) :=
  ⟨by decide, rfl,
   registerDuplicateEmailRejected true 5 "ip9" 9 rbZero "B" "a@x.com" "pw123456"
     exState exUserA (by decide) rfl⟩

/-- Claim C6: a successful registerUser assigns role admin exactly when the
bootstrap policy (configs.CHECK_ADMIN) is enabled and zero accounts exist
at registration time; in every other case the assigned role is user. -/
theorem registerBootstrapAdminIff (checkAdmin : Bool) (now : Nat) (ip : String)
    (salt : Nat) (rb : Nat → List Nat) (name email password : String)
    (s : AuthState) (a : Account)
    (hdup : s.users.find? (fun x => x.email == email) = none)
    (ha : a ∈ (registerUser checkAdmin now ip salt rb name email password s).2.users)
    (hae : a.email = email) :
    a.role = (if checkAdmin && s.users.length == 0 then "admin" else "user")
    ∧ (a.role = "admin" ↔ (checkAdmin = true ∧ s.users.length = 0)) := by
  unfold registerUser at ha
  rw [hdup] at ha
  simp only [getEmailConfirmationToken, getRefreshToken, List.mem_append] at ha
  rcases ha with ha | ha
  · exfalso
    have hne := List.find?_eq_none.mp hdup a ha
    simp [hae] at hne
  · have hrole : a.role = (if checkAdmin && s.users.length == 0 then "admin" else "user") := by
      simp only [List.mem_singleton] at ha
      rw [ha]
    refine ⟨hrole, ?_⟩
    rw [hrole]
    by_cases hc : checkAdmin && s.users.length == 0
    · rw [if_pos hc]
      simp only [Bool.and_eq_true, beq_iff_eq] at hc
      simp [hc]
    · rw [if_neg hc]
      simp only [Bool.and_eq_true, beq_iff_eq] at hc
      constructor
      · intro h
        exact absurd h (by decide)
      · intro h
        exact absurd h hc

/-- The result of a concrete first registration in the empty system with
bootstrap enabled. -/
def exFirstReg : Response × AuthState :=
  registerUser true 0 "ip1" 5 rbZero "A" "a@x.com" "pw123456" exEmptyState

/-- The account created by exFirstReg. -/
def exFirstCreated : Account := exFirstReg.2.users.getLastD exUserA

/-- The result of a concrete second registration, in the state left by
exFirstReg. -/
def exSecondReg : Response × AuthState :=
  registerUser true 0 "ip1" 5 rbZero "B" "b@x.com" "pw123456" exFirstReg.2

/-- The account created by exSecondReg. -/
def exSecondCreated : Account := exSecondReg.2.users.getLastD exUserA

/-- Witness for C6: the first registration in the empty system with
bootstrap enabled yields role admin. -/
theorem registerBootstrapAdminIff_witness :
    exEmptyState.users.find? (fun x => x.email == "a@x.com") = none
    ∧ exFirstCreated ∈ exFirstReg.2.users
    ∧ exFirstCreated.email = "a@x.com"
    ∧ (exFirstCreated.role
        = (if true && exEmptyState.users.length == 0 then "admin" else "user")
      ∧ (exFirstCreated.role = "admin" ↔ (true = true ∧ exEmptyState.users.length = 0))) :=
  ⟨rfl, by decide, by decide,
   registerBootstrapAdminIff true 0 "ip1" 5 rbZero "A" "a@x.com" "pw123456"
     exEmptyState exFirstCreated rfl (by decide) (by decide)⟩

/-- Claim C7: registerUser followed by signin with the same password
succeeds, and signin with any other password fails with the
invalid-credential error; the underlying hash/verify pair satisfies
verify(p, hash(p)) = true and verify(q, hash(p)) = false for q ≠ p. -/
theorem registerThenSigninPasswordContract (checkAdmin : Bool) (now now2 : Nat)
    (ip ip2 : String) (salt : Nat) (rb : Nat → List Nat)
    (name email p q : String) (s s2 : AuthState) (a : Account)
    (hdup : s.users.find? (fun x => x.email == email) = none)
    (ha : a ∈ (registerUser checkAdmin now ip salt rb name email p s).2.users)
    (hae : a.email = email)
    (hq : q ≠ p) :
    bcryptCompareM p (bcryptHashM salt p) = true
    ∧ bcryptCompareM q (bcryptHashM salt p) = false
    ∧ (signin now2 ip2 p a s2).1
        = sendSuccessResponse 200 "Signed in" (some s2.nextRftId)
    ∧ (signin now2 ip2 q a s2).1
        = sendErrorResponse 400 "Password Does not match" := by
  have hpw : a.password = some (bcryptHashM salt p) := by
    unfold registerUser at ha
    rw [hdup] at ha
    simp only [getEmailConfirmationToken, getRefreshToken, List.mem_append] at ha
    rcases ha with ha | ha
    · exfalso
      have hne := List.find?_eq_none.mp hdup a ha
      simp [hae] at hne
    · simp only [List.mem_singleton] at ha
      rw [ha]
      rfl
  have hcq : bcryptCompareM q (bcryptHashM salt p) = false := by
    simp only [bcryptCompareM, bcryptHashM]
    exact beq_eq_false_iff_ne.mpr (fun h => hq h.symm)
  refine ⟨by simp [bcryptCompareM, bcryptHashM], hcq, ?_, ?_⟩
  · simp [signin, matchPasswd, hpw, bcryptCompareM, bcryptHashM, getRefreshToken]
  · simp only [signin, matchPasswd, hpw, hcq]
    rfl

/-- Witness for C7 at a concrete registration followed by two signins. -/
theorem registerThenSigninPasswordContract_witness :
    exEmptyState.users.find? (fun x => x.email == "a@x.com") = none
    ∧ exFirstCreated ∈ exFirstReg.2.users
    ∧ exFirstCreated.email = "a@x.com"
    ∧ "wrongpass" ≠ "pw123456"
    ∧ (bcryptCompareM "pw123456" (bcryptHashM 5 "pw123456") = true
      ∧ bcryptCompareM "wrongpass" (bcryptHashM 5 "pw123456") = false
      ∧ (signin 1 "ip2" "pw123456" exFirstCreated exEmptyState).1
          = sendSuccessResponse 200 "Signed in" (some exEmptyState.nextRftId)
      ∧ (signin 1 "ip2" "wrongpass" exFirstCreated exEmptyState).1
          = sendErrorResponse 400 "Password Does not match") :=
  ⟨rfl, by decide, by decide, by decide,
   registerThenSigninPasswordContract true 0 1 "ip1" "ip2" 5 rbZero "A"
     "a@x.com" "pw123456" "wrongpass" exEmptyState exEmptyState exFirstCreated
     rfl (by decide) (by decide) (by decide)⟩

/-- Claim C4: resetPasswordFromToken with differing new/confirm passwords
fails and leaves all state unchanged; with matching passwords it succeeds,
revokes every active refresh token owned by the account, clears the stored
reset-token digest and expiry, and stores the hash of the new password. -/
theorem resetPasswordFromTokenSpec (now now2 : Nat) (ip ip2 : String)
    (salt salt2 : Nat) (p cp p2 cp2 : String) (u u2 : Account) (s s2 : AuthState)
    (r : RefreshTokenRecord) (a : Account)
    (hne : p2 ≠ cp2)
    (heq : p = cp)
    (hr : r ∈ (resetPasswordFromToken now ip salt p cp u s).2.rfts)
    (hru : r.user = u.id)
    (ha : a ∈ (resetPasswordFromToken now ip salt p cp u s).2.users)
    (hau : a.id = u.id) :
    resetPasswordFromToken now2 ip2 salt2 p2 cp2 u2 s2
      = (sendErrorResponse 400 "Password and confirmed password are different", s2)
    ∧ (resetPasswordFromToken now ip salt p cp u s).1
      = sendSuccessResponse 200 "Password Updated" none
    ∧ r.revoked = true
    ∧ a.pwResetToken = none
    ∧ a.pwResetExpire = none
    ∧ a.password = some (hashPasswd salt p) := by
  have hmat : (p != cp) = false := by simp [heq]
  have h2 : (p2 != cp2) = true := by simpa using hne
  simp only [resetPasswordFromToken, hmat, Bool.false_eq_true, if_false,
    saveUser, revokeAllRfTokenByUser] at hr ha
  refine ⟨by simp [resetPasswordFromToken, h2], by simp [resetPasswordFromToken, hmat], ?_, ?_⟩
  · rcases List.mem_map.mp hr with ⟨x, hx, hfx⟩
    by_cases hc : (x.user == u.id && !x.revoked) = true
    · rw [if_pos hc] at hfx
      rw [← hfx]
      rfl
    · rw [if_neg hc] at hfx
      subst hfx
      simp only [Bool.and_eq_true, beq_iff_eq, Bool.not_eq_true'] at hc
      rcases Bool.eq_false_or_eq_true x.revoked with hrev | hrev
      · exact hrev
      · exact absurd ⟨hru, hrev⟩ hc
  · rcases List.mem_map.mp ha with ⟨y, hy, hfy⟩
    by_cases hc : (y.id == u.id) = true
    · rw [if_pos hc] at hfy
      rw [← hfy]
      exact ⟨rfl, rfl, rfl⟩
    · rw [if_neg hc] at hfy
      subst hfy
      simp only [beq_iff_eq] at hc
      exact absurd hau hc

/-- A live reset-token digest and two live refresh tokens for the C4
witness account. -/
def exUserB : Account :=
  { exUserA with
    id := 3
    uid := "uidb"
    email := "b@x.com"
    pwResetToken := some (sha256hexM "rawreset")
    pwResetExpire := some 900000 }

/-- A second live refresh token, owned by exUserB. -/
def exRft1 : RefreshTokenRecord :=
  { id := 9
    user := 3
    expiresAt := 2000000
    revoked := false
    revokedAt := none
    createdByIP := "ip3"
    revokedByIP := none }

/-- State for the C4 witness: exUserB with one live refresh token. -/
def exStateB : AuthState :=
  { users := [exUserB], nextUserId := 4, rfts := [exRft1], nextRftId := 10 }

/-- Witness for C4: a concrete mismatching reset attempt and a concrete
matching reset for an account with a live refresh token. -/
theorem resetPasswordFromTokenSpec_witness :
    "newpw123" ≠ "otherpw1"
    ∧ "newpw123" = "newpw123"
    ∧ exRft1.revoke 100 "ip4" ∈ (resetPasswordFromToken 100 "ip4" 6 "newpw123" "newpw123" exUserB exStateB).2.rfts
    ∧ (exRft1.revoke 100 "ip4").user = exUserB.id
    ∧ { exUserB with password := some (hashPasswd 6 "newpw123"), pwResetToken := none, pwResetExpire := none }
        ∈ (resetPasswordFromToken 100 "ip4" 6 "newpw123" "newpw123" exUserB exStateB).2.users
    ∧ ({ exUserB with password := some (hashPasswd 6 "newpw123"), pwResetToken := none, pwResetExpire := none } : Account).id = exUserB.id
    ∧ (resetPasswordFromToken 200 "ip5" 6 "newpw123" "otherpw1" exUserA exState
        = (sendErrorResponse 400 "Password and confirmed password are different", exState)
      ∧ (resetPasswordFromToken 100 "ip4" 6 "newpw123" "newpw123" exUserB exStateB).1
        = sendSuccessResponse 200 "Password Updated" none
      ∧ (exRft1.revoke 100 "ip4").revoked = true
      ∧ ({ exUserB with password := some (hashPasswd 6 "newpw123"), pwResetToken := none, pwResetExpire := none } : Account).pwResetToken = none
      ∧ ({ exUserB with password := some (hashPasswd 6 "newpw123"), pwResetToken := none, pwResetExpire := none } : Account).pwResetExpire = none
      ∧ ({ exUserB with password := some (hashPasswd 6 "newpw123"), pwResetToken := none, pwResetExpire := none } : Account).password
        = some (hashPasswd 6 "newpw123")) :=
  ⟨by decide, rfl, by decide, by decide, by decide, by decide,
   resetPasswordFromTokenSpec 100 200 "ip4" "ip5" 6 6 "newpw123" "newpw123"
     "newpw123" "otherpw1" exUserB exUserA exStateB exState
     (exRft1.revoke 100 "ip4")
     { exUserB with password := some (hashPasswd 6 "newpw123"), pwResetToken := none, pwResetExpire := none }
     (by decide) rfl (by decide) (by decide) (by decide) (by decide)⟩

/-- Claim C8: requestResetPasswordToken called while the previously stored
reset expiry is still in the future fails the cooldown gate with no state
change — so at most one reset token is live per account within the
reset-TTL window — and the first raw value remains consumable (its digest
still matches and it is unexpired) until its expiry. -/
theorem requestResetCooldown (now t : Nat) (rb : Nat → List Nat)
    (emailOk : Bool) (u : Account) (s : AuthState) (e : Nat) (raw : String)
    (he : u.pwResetExpire = some e)
    (hlt : now < e)
    (hraw : u.pwResetToken = some (sha256hexM raw))
    (ht : t < e) :
    requestResetPasswordToken now rb emailOk u s
      = (sendErrorResponse 400 "Please check your email, try again later", s)
    ∧ pwResetTokenValid t raw u = true := by
  have hexp : isPwResetTokenExpired now u = false := by
    simp [isPwResetTokenExpired, he]
    omega
  constructor
  · simp [requestResetPasswordToken, hexp]
  · simp [pwResetTokenValid, hraw, isPwResetTokenExpired, he]
    omega

/-- Witness for C8: a concrete second reset request during the cooldown
window. -/
theorem requestResetCooldown_witness :
    exUserB.pwResetExpire = some 900000
    ∧ 100 < 900000
    ∧ exUserB.pwResetToken = some (sha256hexM "rawreset")
    ∧ 200 < 900000
    ∧ (requestResetPasswordToken 100 rbZero true exUserB exStateB
        = (sendErrorResponse 400 "Please check your email, try again later", exStateB)
      ∧ pwResetTokenValid 200 "rawreset" exUserB = true) :=
  ⟨rfl, by decide, rfl, by decide,
   requestResetCooldown 100 200 rbZero true exUserB exStateB 900000 "rawreset"
     rfl (by decide) rfl (by decide)⟩

/-- Claim C9: each ephemeral-token issuance draws at least 30 bytes of
randomness (50 for reset, 30 for confirmation), stores on the account only
the SHA-256 digest of the raw hex value together with an expiry of
now + ttl (30 minutes for reset, 1 hour for confirmation), and returns the
raw value, which is never what was persisted. -/
theorem ephemeralTokenIssuance (now : Nat) (rb : Nat → List Nat) (u : Account)
    (hrb : ∀ n, (rb n).length = n) :
    (getPwResetToken now rb u).1 = bytesToHex (rb 50)
    ∧ 30 ≤ (rb 50).length
    ∧ (getPwResetToken now rb u).2.pwResetToken
        = some (sha256hexM (getPwResetToken now rb u).1)
    ∧ (getPwResetToken now rb u).2.pwResetExpire = some (now + 30 * 60 * 1000)
    ∧ (getPwResetToken now rb u).2.pwResetToken ≠ some (getPwResetToken now rb u).1
    ∧ (getPwResetToken now rb u).2.password = u.password
    ∧ (getPwResetToken now rb u).2.confirmEmailToken = u.confirmEmailToken
    ∧ (getPwResetToken now rb u).2.confirmEmailTokenExpire = u.confirmEmailTokenExpire
    ∧ (getEmailConfirmationToken now rb u).1 = bytesToHex (rb 30)
    ∧ 30 ≤ (rb 30).length
    ∧ (getEmailConfirmationToken now rb u).2.confirmEmailToken
        = some (sha256hexM (getEmailConfirmationToken now rb u).1)
    ∧ (getEmailConfirmationToken now rb u).2.confirmEmailTokenExpire
        = some (now + 60 * 60 * 1000)
    ∧ (getEmailConfirmationToken now rb u).2.confirmEmailToken
        ≠ some (getEmailConfirmationToken now rb u).1
    ∧ (getEmailConfirmationToken now rb u).2.password = u.password
    ∧ (getEmailConfirmationToken now rb u).2.pwResetToken = u.pwResetToken
    ∧ (getEmailConfirmationToken now rb u).2.pwResetExpire = u.pwResetExpire := by
  have hne1 : (getPwResetToken now rb u).2.pwResetToken
      ≠ some (getPwResetToken now rb u).1 := by
    simp only [getPwResetToken]
    intro h
    have h2 := Option.some.inj h
    have hl1 := length_sha256hexM (bytesToHex (rb 50))
    have hl2 := length_bytesToHex (rb 50)
    rw [h2] at hl1
    rw [hrb 50] at hl2
    omega
  have hne2 : (getEmailConfirmationToken now rb u).2.confirmEmailToken
      ≠ some (getEmailConfirmationToken now rb u).1 := by
    simp only [getEmailConfirmationToken]
    intro h
    have h2 := Option.some.inj h
    have hl1 := length_sha256hexM (bytesToHex (rb 30))
    have hl2 := length_bytesToHex (rb 30)
    rw [h2] at hl1
    rw [hrb 30] at hl2
    omega
  refine ⟨rfl, by rw [hrb 50]; decide, rfl, rfl, hne1, rfl, rfl, rfl,
          rfl, by rw [hrb 30], rfl, rfl, hne2, rfl, rfl, rfl⟩

/-- Witness for C9 at concrete randomness. -/
theorem ephemeralTokenIssuance_witness :
    (∀ n, (rbZero n).length = n)
    ∧ ((getPwResetToken 777 rbZero exUserA).1 = bytesToHex (rbZero 50)
      ∧ 30 ≤ (rbZero 50).length
      ∧ (getPwResetToken 777 rbZero exUserA).2.pwResetToken
          = some (sha256hexM (getPwResetToken 777 rbZero exUserA).1)
      ∧ (getPwResetToken 777 rbZero exUserA).2.pwResetExpire = some (777 + 30 * 60 * 1000)
      ∧ (getPwResetToken 777 rbZero exUserA).2.pwResetToken
          ≠ some (getPwResetToken 777 rbZero exUserA).1
      ∧ (getPwResetToken 777 rbZero exUserA).2.password = exUserA.password
      ∧ (getPwResetToken 777 rbZero exUserA).2.confirmEmailToken = exUserA.confirmEmailToken
      ∧ (getPwResetToken 777 rbZero exUserA).2.confirmEmailTokenExpire
          = exUserA.confirmEmailTokenExpire
      ∧ (getEmailConfirmationToken 777 rbZero exUserA).1 = bytesToHex (rbZero 30)
      ∧ 30 ≤ (rbZero 30).length
      ∧ (getEmailConfirmationToken 777 rbZero exUserA).2.confirmEmailToken
          = some (sha256hexM (getEmailConfirmationToken 777 rbZero exUserA).1)
      ∧ (getEmailConfirmationToken 777 rbZero exUserA).2.confirmEmailTokenExpire
          = some (777 + 60 * 60 * 1000)
      ∧ (getEmailConfirmationToken 777 rbZero exUserA).2.confirmEmailToken
          ≠ some (getEmailConfirmationToken 777 rbZero exUserA).1
      ∧ (getEmailConfirmationToken 777 rbZero exUserA).2.password = exUserA.password
      ∧ (getEmailConfirmationToken 777 rbZero exUserA).2.pwResetToken = exUserA.pwResetToken
      ∧ (getEmailConfirmationToken 777 rbZero exUserA).2.pwResetExpire = exUserA.pwResetExpire) :=
  ⟨fun n => by simp [rbZero],
   ephemeralTokenIssuance 777 rbZero exUserA (fun n => by simp [rbZero])⟩

/-- An unconfirmed account with no stored ephemeral-token expiries, for the
C10 witness. -/
def exUserC : Account :=
  { exUserA with id := 5, uid := "uidc", email := "c@x.com", isEmailConfirmed := false }

/-- Claim C10: when no ephemeral-token expiry was ever stored (the field is
absent), both expiry predicates return true, so the cooldown gates of the
reset and confirmation request handlers permit the first issuance (neither
answers with its 400 cooldown rejection). -/
theorem absentExpiryMeansExpired (now : Nat) (rb : Nat → List Nat)
    (emailOk : Bool) (u : Account) (s : AuthState)
    (hpw : u.pwResetExpire = none)
    (hce : u.confirmEmailTokenExpire = none)
    (hcf : u.isEmailConfirmed = false) :
    isPwResetTokenExpired now u = true
    ∧ isConfirmEmailTokenExpired now u = true
    ∧ (requestResetPasswordToken now rb emailOk u s).1.statusCode ≠ 400
    ∧ (requestConfirmationEmail now rb emailOk u s).1.statusCode ≠ 400 := by
  have h1 : isPwResetTokenExpired now u = true := by
    simp [isPwResetTokenExpired, hpw]
  have h2 : isConfirmEmailTokenExpired now u = true := by
    simp [isConfirmEmailTokenExpired, hce]
  refine ⟨h1, h2, ?_, ?_⟩
  · cases emailOk <;>
      simp [requestResetPasswordToken, h1, sendSuccessResponse, sendErrorResponse]
  · cases emailOk <;>
      simp [requestConfirmationEmail, hcf, h2, sendSuccessResponse, sendErrorResponse]

/-- Witness for C10 at a concrete account with absent expiry fields. -/
theorem absentExpiryMeansExpired_witness :
    exUserC.pwResetExpire = none
    ∧ exUserC.confirmEmailTokenExpire = none
    ∧ exUserC.isEmailConfirmed = false
    ∧ (isPwResetTokenExpired 12345 exUserC = true
      ∧ isConfirmEmailTokenExpired 12345 exUserC = true
      ∧ (requestResetPasswordToken 12345 rbZero true exUserC exEmptyState).1.statusCode ≠ 400
      ∧ (requestConfirmationEmail 12345 rbZero true exUserC exEmptyState).1.statusCode ≠ 400) :=
  ⟨rfl, rfl, rfl,
   absentExpiryMeansExpired 12345 rbZero true exUserC exEmptyState rfl rfl rfl⟩

/-- Claim C1: rotation of a refresh token succeeds at most once — a first
successful getJWTFromRefresh returns a fresh token and marks the presented
record revoked, and in the resulting state any later rotation of the same
id, at any time whatsoever (so regardless of the record's expiry), fails
with the TokenInvalid class of error and leaves the state unchanged, and
any later validate of the same id is invalid. -/
theorem rotateAtMostOnce (now now2 : Nat) (ip ip2 : String) (rtid : Nat)
    (s : AuthState) (rft : RefreshTokenRecord) (user : Account)
    (hfind : getRftById s rtid = some rft)
    (hexp : rft.isExpired now = false)
    (huser : findUserById s rft.user = some user) :
    (getJWTFromRefresh now ip rtid s).1
      = sendSuccessResponse 200 "Refresh token : successful" (some s.nextRftId)
    ∧ getRftById (getJWTFromRefresh now ip rtid s).2 rtid = some (rft.revoke now ip)
    ∧ (rft.revoke now ip).revoked = true
    ∧ getJWTFromRefresh now2 ip2 rtid (getJWTFromRefresh now ip rtid s).2
        = (sendErrorResponse 400 "Refresh Token Expired",
           (getJWTFromRefresh now ip rtid s).2)
    ∧ isTokenInvalidResp
        (getJWTFromRefresh now2 ip2 rtid (getJWTFromRefresh now ip rtid s).2).1 = true
    ∧ validateRft now2 (getJWTFromRefresh now ip rtid s).2 rtid = none := by
  have hid : (rft.revoke now ip).id = rft.id := rfl
  have hrevfind := find?_map_replace s.rfts rtid rft (rft.revoke now ip) hfind hid
  have hmain : getJWTFromRefresh now ip rtid s
      = (sendSuccessResponse 200 "Refresh token : successful" (some s.nextRftId),
         { users := s.users
           nextUserId := s.nextUserId
           rfts := (s.rfts.map
               (fun x => if x.id == (rft.revoke now ip).id then rft.revoke now ip else x))
             ++ [{ id := s.nextRftId
                   user := user.id
                   expiresAt := now + REFRESH_TOKEN_TTL_MS
                   revoked := false
                   revokedAt := none
                   createdByIP := ip
                   revokedByIP := none }]
           nextRftId := s.nextRftId + 1 }) := by
    simp only [getJWTFromRefresh, hfind, hexp, Bool.false_eq_true, if_false, huser,
      saveRft, getRefreshToken]
  have hfind2 : getRftById (getJWTFromRefresh now ip rtid s).2 rtid
      = some (rft.revoke now ip) := by
    rw [hmain]
    simp only [getRftById]
    rw [List.find?_append, hrevfind]
    rfl
  have hexp2 : (rft.revoke now ip).isExpired now2 = true := by
    simp [RefreshTokenRecord.isExpired, RefreshTokenRecord.revoke]
  have hsecond : getJWTFromRefresh now2 ip2 rtid (getJWTFromRefresh now ip rtid s).2
      = (sendErrorResponse 400 "Refresh Token Expired",
         (getJWTFromRefresh now ip rtid s).2) := by
    revert hfind2
    generalize (getJWTFromRefresh now ip rtid s).2 = s2
    intro hfind2
    simp only [getJWTFromRefresh, hfind2, hexp2, if_true]
  have hval : validateRft now2 (getJWTFromRefresh now ip rtid s).2 rtid = none := by
    revert hfind2
    generalize (getJWTFromRefresh now ip rtid s).2 = s2
    intro hfind2
    simp only [validateRft, hfind2, hexp2, if_true]
  refine ⟨by rw [hmain], hfind2, rfl, hsecond, ?_, hval⟩
  rw [hsecond]
  rfl

/-- Witness for C1: a concrete successful rotation followed by a second
rotation and a validate of the same id, both attempted well before the
record's expiry. -/
theorem rotateAtMostOnce_witness :
    getRftById exState 7 = some exRft0
    ∧ exRft0.isExpired 100 = false
    ∧ findUserById exState exRft0.user = some exUserA
    ∧ ((getJWTFromRefresh 100 "ipA" 7 exState).1
        = sendSuccessResponse 200 "Refresh token : successful" (some exState.nextRftId)
      ∧ getRftById (getJWTFromRefresh 100 "ipA" 7 exState).2 7
        = some (exRft0.revoke 100 "ipA")
      ∧ (exRft0.revoke 100 "ipA").revoked = true
      ∧ getJWTFromRefresh 50 "ipB" 7 (getJWTFromRefresh 100 "ipA" 7 exState).2
        = (sendErrorResponse 400 "Refresh Token Expired",
           (getJWTFromRefresh 100 "ipA" 7 exState).2)
      ∧ isTokenInvalidResp
          (getJWTFromRefresh 50 "ipB" 7 (getJWTFromRefresh 100 "ipA" 7 exState).2).1 = true
      ∧ validateRft 50 (getJWTFromRefresh 100 "ipA" 7 exState).2 7 = none) :=
  ⟨by decide, by decide, by decide,
   rotateAtMostOnce 100 50 "ipA" "ipB" 7 exState exRft0 exUserA
     (by decide) (by decide) (by decide)⟩

/-- Claim C2 (code bug, evaluated at the failing input): a cross-account
revocation request — the token's owning account has uid uida while the
caller's access token asserts other-uid — answers with the Invalid Refresh
Token error, but because the source omits return before the
sendInvalidToken() call, execution falls through: the unexpired token is
still revoked (its revoked flag flips from false to true) and a second,
undeliverable success reply is attempted.  The claim that no revocation is
performed is violated. -/
theorem revokeCrossAccountStillRevokes :
    (revokeRefreshToken 100 "ipE" 7 "other-uid" exState).1
      = [sendErrorResponseClear 400 "Invalid Refresh Token",
         sendSuccessResponseClear 200 "Refresh token successfully revoked"]
    ∧ (revokeRefreshToken 100 "ipE" 7 "other-uid" exState).1.head?
      = some (sendErrorResponseClear 400 "Invalid Refresh Token")
    ∧ (revokeRefreshToken 100 "ipE" 7 "other-uid" exState).2.rfts
      = [exRft0.revoke 100 "ipE"]
    ∧ exRft0.revoked = false
    ∧ (exRft0.revoke 100 "ipE").revoked = true := by
  decide

/-- A state in which no refresh token with id 7 exists. -/
def exStateNoTok : AuthState :=
  { users := [exUserA], nextUserId := 2, rfts := [], nextRftId := 8 }

/-- exRft0 already revoked (and far from time expiry). -/
def exRftRevoked : RefreshTokenRecord := { exRft0 with revoked := true }

/-- A state holding only the revoked token. -/
def exStateRevoked : AuthState :=
  { users := [exUserA], nextUserId := 2, rfts := [exRftRevoked], nextRftId := 8 }

/-- exRft0 unrevoked but past its expiry at time 100. -/
def exRftExpired : RefreshTokenRecord := { exRft0 with expiresAt := 40 }

/-- A state holding only the time-expired token. -/
def exStateExpired : AuthState :=
  { users := [exUserA], nextUserId := 2, rfts := [exRftExpired], nextRftId := 8 }

/-- Counterexample to claim C3 as stated: the not-found failure and the
revoked failure of getJWTFromRefresh are observably different — the reply
messages differ — so the three failure causes do not produce an identical
caller-observable result. -/
theorem refreshFailuresDistinguishable :
    (getJWTFromRefresh 100 "ip" 7 exStateNoTok).1.message
      ≠ (getJWTFromRefresh 100 "ip" 7 exStateRevoked).1.message := by
  decide

/-- Claim C3 amended: every one of the three failure causes of a presented
refresh token id — not found, revoked, past expiry — yields a 400 error of
the TokenInvalid class, and the revoked and past-expiry causes produce
identical replies, but the not-found cause is distinguishable from the
other two by its message (Invalid Refresh Token versus Refresh Token
Expired). -/
theorem refreshFailureObservability (now : Nat) (ip : String) (i1 i2 i3 : Nat)
    (s1 s2 s3 : AuthState) (r2 r3 : RefreshTokenRecord)
    (h1 : getRftById s1 i1 = none)
    (h2 : getRftById s2 i2 = some r2) (hrev : r2.revoked = true)
    (h3 : getRftById s3 i3 = some r3) (hexp : r3.expiresAt ≤ now) :
    getJWTFromRefresh now ip i1 s1 = (sendErrorResponse 400 "Invalid Refresh Token", s1)
    ∧ getJWTFromRefresh now ip i2 s2 = (sendErrorResponse 400 "Refresh Token Expired", s2)
    ∧ getJWTFromRefresh now ip i3 s3 = (sendErrorResponse 400 "Refresh Token Expired", s3)
    ∧ (getJWTFromRefresh now ip i2 s2).1 = (getJWTFromRefresh now ip i3 s3).1
    ∧ isTokenInvalidResp (getJWTFromRefresh now ip i1 s1).1 = true
    ∧ isTokenInvalidResp (getJWTFromRefresh now ip i2 s2).1 = true
    ∧ (getJWTFromRefresh now ip i1 s1).1.statusCode
        = (getJWTFromRefresh now ip i2 s2).1.statusCode
    ∧ (getJWTFromRefresh now ip i1 s1).1.message
        ≠ (getJWTFromRefresh now ip i2 s2).1.message := by
  have e1 : getJWTFromRefresh now ip i1 s1
      = (sendErrorResponse 400 "Invalid Refresh Token", s1) := by
    simp only [getJWTFromRefresh, h1]
  have hex2 : r2.isExpired now = true := by
    simp [RefreshTokenRecord.isExpired, hrev]
  have e2 : getJWTFromRefresh now ip i2 s2
      = (sendErrorResponse 400 "Refresh Token Expired", s2) := by
    simp only [getJWTFromRefresh, h2, hex2, if_true]
  have hd3 : decide (now ≥ r3.expiresAt) = true := decide_eq_true hexp
  have hex3 : r3.isExpired now = true := by
    simp [RefreshTokenRecord.isExpired, hd3]
  have e3 : getJWTFromRefresh now ip i3 s3
      = (sendErrorResponse 400 "Refresh Token Expired", s3) := by
    simp only [getJWTFromRefresh, h3, hex3, if_true]
  refine ⟨e1, e2, e3, by rw [e2, e3], by rw [e1]; rfl, by rw [e2]; rfl,
    by rw [e1, e2]; rfl, ?_⟩
  rw [e1, e2]
  show "Invalid Refresh Token" ≠ "Refresh Token Expired"
  decide

/-- Witness for the amended C3 at concrete states exhibiting the three
failure causes. -/
theorem refreshFailureObservability_witness :
    getRftById exStateNoTok 7 = none
    ∧ getRftById exStateRevoked 7 = some exRftRevoked
    ∧ exRftRevoked.revoked = true
    ∧ getRftById exStateExpired 7 = some exRftExpired
    ∧ exRftExpired.expiresAt ≤ 100
    ∧ (getJWTFromRefresh 100 "ip" 7 exStateNoTok
        = (sendErrorResponse 400 "Invalid Refresh Token", exStateNoTok)
      ∧ getJWTFromRefresh 100 "ip" 7 exStateRevoked
        = (sendErrorResponse 400 "Refresh Token Expired", exStateRevoked)
      ∧ getJWTFromRefresh 100 "ip" 7 exStateExpired
        = (sendErrorResponse 400 "Refresh Token Expired", exStateExpired)
      ∧ (getJWTFromRefresh 100 "ip" 7 exStateRevoked).1
        = (getJWTFromRefresh 100 "ip" 7 exStateExpired).1
      ∧ isTokenInvalidResp (getJWTFromRefresh 100 "ip" 7 exStateNoTok).1 = true
      ∧ isTokenInvalidResp (getJWTFromRefresh 100 "ip" 7 exStateRevoked).1 = true
      ∧ (getJWTFromRefresh 100 "ip" 7 exStateNoTok).1.statusCode
        = (getJWTFromRefresh 100 "ip" 7 exStateRevoked).1.statusCode
      ∧ (getJWTFromRefresh 100 "ip" 7 exStateNoTok).1.message
        ≠ (getJWTFromRefresh 100 "ip" 7 exStateRevoked).1.message) :=
  ⟨by decide, by decide, by decide, by decide, by decide,
   refreshFailureObservability 100 "ip" 7 7 7 exStateNoTok exStateRevoked
     exStateExpired exRftRevoked exRftExpired (by decide) (by decide)
     (by decide) (by decide) (by decide)⟩

end SimpleAuthService










